import Mathlib

/-!
# Verification of the calculator history subsystem

A shallow embedding of the history store (`src/app/calculation/history.py`)
and the history command handler (`src/app/plugins/history_command.py`).

Modelling conventions:
* Python `Decimal` operands and results are modelled by `Rat` (exact
  arithmetic; every concrete value appearing in the claims is exact in
  both representations).
* The class-level mutable state of `History` (the `history` list) and the
  file system (data directory, single history CSV file) are threaded
  explicitly through a `World` record.
* A CSV cell that `Decimal(...)` fails to parse is modelled as `none`;
  a file that `pandas.read_csv` raises on is `FileState.corrupt`; an
  absent file is `FileState.missing`.
* Each Python `print(...)` call is one element of the returned
  `List String`.
-/

namespace CalcHist

/-- The operations of `app/operations/operations.py` as a closed enumeration.
`app.operations.operations` defines exactly `add`, `subtract`, `multiply`,
`divide`, and these are the only operation names `History.load_from_csv`
recognises (its `operation_map`). -/
inductive Operation where
  | add
  | subtract
  | multiply
  | divide
deriving DecidableEq

/-- Python `operation.__name__`: the function's identifying name. -/
def Operation.name : Operation → String
  | .add => "add"
  | .subtract => "subtract"
  | .multiply => "multiply"
  | .divide => "divide"

/-- Modelled from the spec: the arithmetic operation bodies
(`app/operations/operations.py` is not under `src/`); the spec describes
them as the standard decimal binary operations add/subtract/multiply/divide.
Division is exact rational division here (no claim exercises it). -/
def Operation.apply : Operation → Rat → Rat → Rat
  | .add, a, b => a + b
  | .subtract, a, b => a - b
  | .multiply, a, b => a * b
  | .divide, a, b => a / b

/-- Modelled from the spec: the `Calculation` record
(`app/calculation/calculation.py` is not under `src/`); per the spec it is an
immutable record of two decimal operands and an operation, with a derived
result computed on demand by `perform()`. -/
structure Calculation where
  a : Rat
  b : Rat
  operation : Operation
deriving DecidableEq

/-- Method `Calculation.perform()`: a pure function of `a`, `b`, `operation`. -/
def Calculation.perform (c : Calculation) : Rat :=
  c.operation.apply c.a c.b

/-- Classmethod `Calculation.create(a, b, operation)` used by `History.load_from_csv`. -/
def Calculation.create (a b : Rat) (op : Operation) : Calculation :=
  ⟨a, b, op⟩

/-- One CSV row as written by `History.save_to_csv` and read back by
`History.load_from_csv`.  Operand cells are `none` when the stored text is
not parseable by `Decimal(...)` (in which case the reconstruction loop
raises). The `Result` and `Timestamp` columns are never read back. -/
structure Row where
  ts : String
  opA : Option Rat
  opB : Option Rat
  operation : String
  result : Option Rat
deriving DecidableEq

/-- The persisted history file. -/
inductive FileState where
  /-- The file is absent: `os.path.exists` is false. -/
  | missing
  /-- The file exists but `pandas.read_csv` raises on it. -/
  | corrupt
  /-- The file exists and parses to these rows. -/
  | table (rows : List Row)
deriving DecidableEq

/-- The state the history subsystem touches: the in-memory history list,
the data directory (existence and writability) and the single history
CSV file. -/
structure World where
  hist : List Calculation
  dirExists : Bool
  dirWritable : Bool
  file : FileState
deriving DecidableEq

/-- Source `History.find_by_operation`: `[calc for calc in cls.history if
calc.operation.__name__ == operation_name]`. -/
def find_by_operation (hist : List Calculation) (operation_name : String) :
    List Calculation :=
  hist.filter (fun c => c.operation.name == operation_name)

/-- Source `History.get_latest`: last element, or `none` when empty. -/
def get_latest (hist : List Calculation) : Option Calculation :=
  hist.getLast?

/-- Source `History.ensure_data_directory` as a predicate on the directory state:
absent directory is created (`True`), existing unwritable directory gives
`False`, existing writable directory gives `True`. -/
def ensure_data_directory (dirExists dirWritable : Bool) : Bool :=
  if !dirExists then true
  else if !dirWritable then false
  else true

/-- Effect of `ensure_data_directory` on the world: `os.makedirs` creates
the directory when it is absent. -/
def ensureW (w : World) : Bool × World :=
  if !w.dirExists then (true, { w with dirExists := true })
  else if !w.dirWritable then (false, w)
  else (true, w)

/-- The row `History.save_to_csv` builds for one calculation: timestamp of
the save, exact operand text, `operation.__name__`, and `str(calc.perform())`. -/
def calcToRow (now : String) (c : Calculation) : Row :=
  { ts := now
    opA := some c.a
    opB := some c.b
    operation := c.operation.name
    result := some c.perform }

/-- Source `History.save_to_csv`: directory check first (returning `False` when it
fails), then one row per history entry; an empty row list is a no-op
returning `False`, a non-empty one overwrites the file and returns `True`. -/
def save_to_csv (now : String) (w : World) : Bool × World :=
  match ensureW w with
  | (false, w1) => (false, w1)
  | (true, w1) =>
    let history_data := w1.hist.map (calcToRow now)
    if history_data.isEmpty then (false, w1)
    else (true, { w1 with file := .table history_data })

/-- The `operation_map` of `History.load_from_csv`. -/
def operation_map : List (String × Operation) :=
  [("add", .add), ("subtract", .subtract),
   ("multiply", .multiply), ("divide", .divide)]

/-- The row-reconstruction loop of `History.load_from_csv`.  Rows with an
unrecognised operation name are skipped; a row whose operand cell fails
`Decimal(...)` raises, aborting the loop — the calculations already added
stay, and the flag records whether the loop ran to completion. -/
def reconstructRows : List Row → List Calculation × Bool
  | [] => ([], true)
  | row :: rest =>
    match operation_map.lookup row.operation with
    | none => reconstructRows rest
    | some op =>
      match row.opA, row.opB with
      | some a, some b =>
        let tl := reconstructRows rest
        (Calculation.create a b op :: tl.1, tl.2)
      | _, _ => ([], false)

/-- Source `History.load_from_csv`: returns `False` before touching the history
when the file is missing or `read_csv` raises; otherwise it clears the
history and runs the reconstruction loop, whose partial product remains in
the history even when the loop raises (the exception is caught and `False`
returned). -/
def load_from_csv (w : World) : Bool × World :=
  match w.file with
  | .missing => (false, w)
  | .corrupt => (false, w)
  | .table rows =>
    let res := reconstructRows rows
    (res.2, { w with hist := res.1 })

/-- Source `History.remove_at_index`: removes the entry at `index` when
`0 <= index < len(history)`, otherwise fails without mutating. The index is
an `Int` because the caller parses it with `int(...)`. -/
def remove_at_index (hist : List Calculation) (index : Int) :
    List Calculation × Bool :=
  if 0 ≤ index ∧ index < hist.length then
    (hist.eraseIdx index.toNat, true)
  else
    (hist, false)

/-- Source `History.get_history_as_dataframe`: one row per entry with columns
(First Operand, Second Operand, Operation, Result). -/
def get_history_as_dataframe (hist : List Calculation) :
    List (Rat × Rat × String × Rat) :=
  hist.map (fun c => (c.a, c.b, c.operation.name, c.perform))

/-! ## The history command handler (`src/app/plugins/history_command.py`) -/

/-- Python `str.lower()` on the argument strings the program handles
(ASCII); `Char.toLower` is exactly the ASCII-latin lowering. -/
def lowerAscii (s : String) : String :=
  ⟨s.data.map Char.toLower⟩

/-- The value of one ASCII digit run. -/
def digitsVal (ds : List Char) : Nat :=
  ds.foldl (fun n c => 10 * n + (c.toNat - 48)) 0

/-- Python `int(...)` on a command argument: an optional sign followed by
at least one ASCII digit parses; anything else (such as `"abc"`) raises
`ValueError`, modelled as `none`.  (Surrounding whitespace and underscore
grouping, which CPython also accepts, never reach this code path from the
whitespace-split REPL and are outside the model.) -/
def pyInt (s : String) : Option Int :=
  match s.data with
  | [] => none
  | '-' :: ds =>
    if ds ≠ [] ∧ ds.all Char.isDigit then some (-(digitsVal ds : Int)) else none
  | '+' :: ds =>
    if ds ≠ [] ∧ ds.all Char.isDigit then some ((digitsVal ds : Int)) else none
  | ds =>
    if ds.all Char.isDigit then some ((digitsVal ds : Int)) else none

/-- Floor of a rational (denominator is always positive, so Euclidean
division is floor division). -/
def ratFloor (q : Rat) : Int :=
  q.num.ediv q.den

/-- Left-pad a digit string with zeros to the given width. -/
def padZeros (width : Nat) (s : String) : String :=
  ⟨List.replicate (width - s.length) '0'⟩ ++ s

/-- Python's `:.1f` / `:.2f` fixed-point formatting, as used by
`_analyze_history`.  Rounding is half-up here; every value the claims
format is exact at the requested precision, so the tie-breaking rule is
never exercised. -/
def formatFixed (prec : Nat) (q : Rat) : String :=
  let n : Int := ratFloor (q * ((10 : Rat) ^ prec) + 1 / 2)
  let sign : String := if n < 0 then "-" else ""
  let a : Nat := n.natAbs
  sign ++ toString (a / 10 ^ prec) ++ "." ++ padZeros prec (toString (a % 10 ^ prec))

/-- Sum of a list of rationals. -/
def ratSum (l : List Rat) : Rat :=
  l.foldl (· + ·) 0

/-- Maximum of a non-empty list (0 for the empty list, which is never
reached: `_analyze_history` returns early on an empty history). -/
def listMax : List Rat → Rat
  | [] => 0
  | x :: xs => xs.foldl max x

/-- Minimum of a non-empty list (0 for the empty list, never reached). -/
def listMin : List Rat → Rat
  | [] => 0
  | x :: xs => xs.foldl min x

/-- The distinct operation names of the dataframe in first-appearance
order.  (`pandas.value_counts` orders by descending count; no claim
depends on the order of the per-operation lines, only on which lines
appear.) -/
def dedupFirst : List String → List String
  | [] => []
  | s :: rest =>
    let tail := dedupFirst rest
    if s ∈ tail then tail else s :: tail

/-- Source `get_file_path`: `os.path.join` of the data directory and the
filename or default. -/
def get_file_path (filename : Option String) : String :=
  "./data/" ++ filename.getD "calculation_history.csv"

/-- One `index: a op b = result` line as printed by `_display_history` and
`_filter_history` (numeric text rendered through `Rat`'s `toString`; no
claim inspects the numeric rendering of these lines). -/
def formatEntry (i : Nat) (opname : String) (c : Calculation) : String :=
  toString i ++ ": " ++ toString c.a ++ " " ++ opname ++ " " ++ toString c.b
    ++ " = " ++ toString c.perform

/-- Source `_display_history`. -/
def displayHistory (hist : List Calculation) : List String :=
  if hist.isEmpty then ["No calculations in history."]
  else
    "Calculation History:" ::
      hist.enum.map (fun p => formatEntry p.1 p.2.operation.name p.2)

/-- Source `_clear_history`: clears the in-memory history, then calls
`History.save_to_csv()` on the now-empty history to update the file. -/
def clearCmd (now : String) (w : World) : List String × World :=
  let w1 := { w with hist := [] }
  match save_to_csv now w1 with
  | (true, w2) => (["History cleared and saved file updated."], w2)
  | (false, w2) =>
    (["History cleared in memory, but there was an issue updating the file."], w2)

/-- Source `_save_history`: its own directory check first, then the store-level
save. -/
def saveCmd (now : String) (args : List String) (w : World) : List String × World :=
  match ensureW w with
  | (false, w1) => (["Error: Data directory not accessible"], w1)
  | (true, w1) =>
    match save_to_csv now w1 with
    | (true, w2) => (["History saved to " ++ get_file_path args.head?], w2)
    | (false, w2) => (["No history to save or error occurred."], w2)

/-- Source `_load_history`: `os.path.exists` check first, then the store-level
load. -/
def loadCmd (args : List String) (w : World) : List String × World :=
  let path := get_file_path args.head?
  if w.file = .missing then (["Error: File not found at " ++ path], w)
  else
    match load_from_csv w with
    | (true, w1) => (["History loaded from " ++ path], w1)
    | (false, w1) => (["Error occurred while loading history."], w1)

/-- Source `_delete_history`. -/
def deleteCmd (args : List String) (w : World) : List String × World :=
  match args with
  | [] => (["Error: Please provide an index to delete (e.g., 'delete 2')"], w)
  | arg :: _ =>
    match pyInt arg with
    | none =>
      (["Error: '" ++ arg ++ "' is not a valid index. Please provide a number."], w)
    | some index =>
      match remove_at_index w.hist index with
      | (hist1, true) =>
        (["Deleted calculation at index " ++ toString index],
          { w with hist := hist1 })
      | (_, false) =>
        (["Error: Could not delete calculation at index " ++ toString index], w)

/-- Source `_analyze_history`: statistics over `get_history_as_dataframe`. -/
def analyzeHistory (hist : List Calculation) : List String :=
  let df := get_history_as_dataframe hist
  if df.isEmpty then ["No calculations in history to analyze."]
  else
    let total := df.length
    let ops := df.map (fun r => r.2.2.1)
    let results := df.map (fun r => r.2.2.2)
    let counts := (dedupFirst ops).map (fun s => (s, ops.count s))
    ["\nHistory Analysis:",
     "Total calculations: " ++ toString total,
     "\nOperations breakdown:"]
    ++ counts.map (fun p =>
        "  - " ++ p.1 ++ ": " ++ toString p.2 ++ " ("
          ++ formatFixed 1 ((p.2 : Rat) / (total : Rat) * 100) ++ "%)")
    ++ ["\nResults statistics:",
        "  - Average result: " ++ formatFixed 2 (ratSum results / (total : Rat)),
        "  - Maximum result: " ++ formatFixed 2 (listMax results),
        "  - Minimum result: " ++ formatFixed 2 (listMin results)]

/-- Source `_filter_history`: lowercases its argument, then queries the store. -/
def filterCmd (args : List String) (w : World) : List String × World :=
  match args with
  | [] => (["Error: Please provide an operation to filter by (e.g., 'filter add')"], w)
  | arg :: _ =>
    let operation_name := lowerAscii arg
    let filtered := find_by_operation w.hist operation_name
    if filtered.isEmpty then
      (["No calculations found with operation '" ++ operation_name ++ "'."], w)
    else
      (("Filtered History (" ++ operation_name ++ "):") ::
        filtered.enum.map (fun p => formatEntry p.1 operation_name p.2), w)

/-- The seven recognised subcommand names (the keys of `subcommand_map`). -/
def subcommandNames : List String :=
  ["show", "clear", "save", "load", "delete", "analyze", "filter"]

/-- Source `HistoryCommand.execute`: no arguments displays the history; otherwise
the first argument is lowercased and looked up in `subcommand_map`, the
remaining arguments are passed through, and an unknown subcommand is
reported with its lowercased name. -/
def executeHistory (now : String) (args : List String) (w : World) :
    List String × World :=
  match args with
  | [] => (displayHistory w.hist, w)
  | sub :: rest =>
    let s := lowerAscii sub
    if s = "show" then (displayHistory w.hist, w)
    else if s = "clear" then clearCmd now w
    else if s = "save" then saveCmd now rest w
    else if s = "load" then loadCmd rest w
    else if s = "delete" then deleteCmd rest w
    else if s = "analyze" then (analyzeHistory w.hist, w)
    else if s = "filter" then filterCmd rest w
    else (["Unknown history subcommand: '" ++ s ++ "'"], w)

/-! ## Auxiliary definitions for the statements -/

/-- Two CSV rows that agree on every column `load_from_csv` reads
(everything except `Result`). -/
def sameExceptResult (r1 r2 : Row) : Prop :=
  r1.ts = r2.ts ∧ r1.opA = r2.opA ∧ r1.opB = r2.opB ∧ r1.operation = r2.operation

/-- A one-entry history used as the state before a failing load. -/
def cexCalc : Calculation := ⟨5, 3, .add⟩

/-- A row whose operation is recognised but whose `First Operand` cell does
not parse: reconstruction of this entry raises. -/
def cexRow : Row :=
  { ts := "2025-03-11 12:00:00", opA := none, opB := some 1,
    operation := "add", result := some 8 }

/-- World in which a load fails during entry reconstruction. -/
def cexWorld : World :=
  { hist := [cexCalc], dirExists := true, dirWritable := true,
    file := .table [cexRow] }

end CalcHist

namespace CalcHist

/-! ## Helper lemmas -/

theorem toLower_of_upper {c : Char} (h : 65 ≤ c.toNat ∧ c.toNat ≤ 90) :
    c.toLower = Char.ofNat (c.toNat + 32) := by
  simp only [Char.toLower]
  rw [if_pos h]

theorem toLower_of_not_upper {c : Char} (h : ¬(65 ≤ c.toNat ∧ c.toNat ≤ 90)) :
    c.toLower = c := by
  simp only [Char.toLower]
  rw [if_neg h]

theorem toLower_not_upper (c : Char) :
    ¬(65 ≤ c.toLower.toNat ∧ c.toLower.toNat ≤ 90) := by
  by_cases h : 65 ≤ c.toNat ∧ c.toNat ≤ 90
  · rw [toLower_of_upper h]
    obtain ⟨h1, h2⟩ := h
    generalize c.toNat = n at h1 h2 ⊢
    interval_cases n <;> decide
  · rw [toLower_of_not_upper h]
    exact h

theorem toLower_idem (c : Char) : c.toLower.toLower = c.toLower :=
  toLower_of_not_upper (toLower_not_upper c)

theorem lowerAscii_idem (s : String) : lowerAscii (lowerAscii s) = lowerAscii s := by
  unfold lowerAscii
  apply congrArg String.mk
  show (s.data.map Char.toLower).map Char.toLower = s.data.map Char.toLower
  rw [List.map_map]
  exact List.map_congr_left fun a _ => toLower_idem a

theorem lowerAscii_no_upper (s : String) :
    ∀ ch ∈ (lowerAscii s).data, ¬(65 ≤ ch.toNat ∧ ch.toNat ≤ 90) := by
  intro ch hch
  have : ch ∈ s.data.map Char.toLower := hch
  obtain ⟨a, _, rfl⟩ := List.mem_map.mp this
  exact toLower_not_upper a

/-- When the directory check succeeds, `ensure_data_directory`'s only
effect is that the directory now exists. -/
theorem ensureW_of_ready (w : World)
    (h : ensure_data_directory w.dirExists w.dirWritable = true) :
    ensureW w = (true, { w with dirExists := true }) := by
  obtain ⟨hist, dE, dW, f⟩ := w
  rcases dE with _ | _ <;> rcases dW with _ | _ <;>
    simp_all [ensureW, ensure_data_directory]

/-- Lookup in `operation_map` inverts `Operation.name`. -/
theorem operation_map_lookup_name (op : Operation) :
    operation_map.lookup op.name = some op := by
  cases op <;> rfl

/-- Reloading the rows saved from a history reconstructs that history
exactly, with the loop running to completion. -/
theorem reconstructRows_calcToRow (now : String) (hist : List Calculation) :
    reconstructRows (hist.map (calcToRow now)) = (hist, true) := by
  induction hist with
  | nil => rfl
  | cons c tl ih =>
    simp only [List.map_cons, reconstructRows, calcToRow,
      operation_map_lookup_name, ih, Calculation.create]

/-- The reconstruction loop never reads the `Result` (or `Timestamp`)
column. -/
theorem reconstructRows_ignores_result {rows rows' : List Row}
    (h : List.Forall₂ sameExceptResult rows rows') :
    reconstructRows rows = reconstructRows rows' := by
  induction h with
  | nil => rfl
  | cons hr _ ih =>
    obtain ⟨_, hA, hB, hop⟩ := hr
    simp only [reconstructRows, hA, hB, hop, ih]

/-! ## Claim theorems -/

/-- C4: for a history of length `n` and integer index `i`, `remove_at_index`
with `0 ≤ i < n` succeeds and returns the history with the entry at `i`
removed and all later entries shifted down by one; with `i < 0` or `i ≥ n`
it fails and leaves the history unchanged. -/
theorem remove_at_index_spec (hist : List Calculation) (i : Int) :
    (0 ≤ i → i < hist.length →
      remove_at_index hist i = (hist.take i.toNat ++ hist.drop (i.toNat + 1), true)) ∧
    (i < 0 ∨ (hist.length : Int) ≤ i → remove_at_index hist i = (hist, false)) := by
  constructor
  · intro h1 h2
    unfold remove_at_index
    rw [if_pos ⟨h1, h2⟩, List.eraseIdx_eq_take_drop_succ]
  · intro h
    unfold remove_at_index
    rw [if_neg]
    omega

/-- Witness for C4 at a concrete three-entry history: index 1 removes the
middle entry and shifts the rest down; index `-1` and index 3 fail without
mutating. -/
theorem remove_at_index_spec_witness :
    remove_at_index [cexCalc, ⟨1, 2, .subtract⟩, ⟨4, 4, .multiply⟩] 1
        = ([cexCalc, ⟨4, 4, .multiply⟩], true) ∧
    remove_at_index [cexCalc] (-1) = ([cexCalc], false) ∧
    remove_at_index [cexCalc] 3 = ([cexCalc], false) := by
  refine ⟨?_, ?_, ?_⟩
  · have h := (remove_at_index_spec [cexCalc, ⟨1, 2, .subtract⟩, ⟨4, 4, .multiply⟩] 1).1
      (by decide) (by decide)
    simpa using h
  · exact (remove_at_index_spec [cexCalc] (-1)).2 (by decide)
  · exact (remove_at_index_spec [cexCalc] 3).2 (by right; norm_num)

/-- C5: `save_to_csv` returns `false` exactly when the data directory
exists but is unwritable or the history is empty; an empty history causes
no write (the file is untouched), and a non-empty history with a ready
directory is written as one row per entry with `true` returned. -/
theorem save_to_csv_spec (now : String) (w : World) :
    ((save_to_csv now w).1 = false ↔
      (w.dirExists = true ∧ w.dirWritable = false) ∨ w.hist = []) ∧
    (w.hist = [] → (save_to_csv now w).2.file = w.file) ∧
    (w.hist ≠ [] → ensure_data_directory w.dirExists w.dirWritable = true →
      (save_to_csv now w).1 = true ∧
      ∃ rows, (save_to_csv now w).2.file = FileState.table rows ∧
        rows.length = w.hist.length) := by
  obtain ⟨hist, dE, dW, f⟩ := w
  rcases dE with _ | _ <;> rcases dW with _ | _ <;> rcases hist with _ | ⟨c, tl⟩ <;>
    simp [save_to_csv, ensureW, ensure_data_directory, List.isEmpty_iff]

/-- Witness for C5: the empty store saves as `false` without writing, and
a one-entry store with a writable directory saves one row with `true`. -/
theorem save_to_csv_spec_witness :
    ((save_to_csv "t" ⟨[], true, true, .missing⟩).1 = false ↔
      ((true : Bool) = true ∧ (true : Bool) = false) ∨ ([] : List Calculation) = []) ∧
    ([cexCalc] ≠ [] ∧ ensure_data_directory true true = true) ∧
    ((save_to_csv "t" ⟨[cexCalc], true, true, .missing⟩).1 = true ∧
      ∃ rows, (save_to_csv "t" ⟨[cexCalc], true, true, .missing⟩).2.file
          = FileState.table rows ∧ rows.length = [cexCalc].length) := by
  have h := (save_to_csv_spec "t" ⟨[cexCalc], true, true, .missing⟩).2.2
    (by decide) (by decide)
  exact ⟨(save_to_csv_spec "t" ⟨[], true, true, .missing⟩).1, ⟨by decide, by decide⟩, h⟩

/-- C6: `find_by_operation` returns exactly the entries whose operation
name equals the query (case-sensitive string equality), as a sublist of the
history (so the original relative order is preserved), and the empty list
when nothing matches. -/
theorem find_by_operation_spec (hist : List Calculation) (name : String) :
    (∀ c ∈ find_by_operation hist name, c.operation.name = name) ∧
    (∀ c ∈ hist, c.operation.name = name → c ∈ find_by_operation hist name) ∧
    List.Sublist (find_by_operation hist name) hist ∧
    find_by_operation hist name
      = hist.filter (fun c => decide (c.operation.name = name)) ∧
    ((∀ c ∈ hist, c.operation.name ≠ name) → find_by_operation hist name = []) := by
  have hfe : find_by_operation hist name
      = hist.filter (fun c => decide (c.operation.name = name)) := by
    unfold find_by_operation
    apply List.filter_congr
    intro c _
    rw [Bool.eq_iff_iff, beq_iff_eq, decide_eq_true_iff]
  refine ⟨?_, ?_, ?_, hfe, ?_⟩
  · intro c hc
    rw [hfe] at hc
    exact of_decide_eq_true (List.mem_filter.mp hc).2
  · intro c hc hname
    rw [hfe]
    exact List.mem_filter.mpr ⟨hc, decide_eq_true hname⟩
  · rw [hfe]
    exact List.filter_sublist hist
  · intro hnone
    rw [hfe, List.filter_eq_nil_iff]
    intro c hc
    exact fun hh => hnone c hc (of_decide_eq_true hh)

/-- Witness for C6 on the two-entry history of the spec's scenario:
`find_by_operation "add"` returns exactly the `add` entry, in order, and a
query matching nothing returns the empty list. -/
theorem find_by_operation_spec_witness :
    (∀ c ∈ find_by_operation [⟨10, 5, .add⟩, ⟨20, 3, .subtract⟩] "add",
      c.operation.name = "add") ∧
    find_by_operation [⟨10, 5, .add⟩, ⟨20, 3, .subtract⟩] "add" = [⟨10, 5, .add⟩] ∧
    find_by_operation [⟨10, 5, .add⟩, ⟨20, 3, .subtract⟩] "Add" = [] := by
  refine ⟨(find_by_operation_spec [⟨10, 5, .add⟩, ⟨20, 3, .subtract⟩] "add").1,
    by decide, ?_⟩
  exact (find_by_operation_spec [⟨10, 5, .add⟩, ⟨20, 3, .subtract⟩] "Add").2.2.2.2
    (by decide)

/-- C1 counterexample: a load that fails because reconstruction of an
entry raises (recognised operation, unparseable operand cell) returns
failure but does NOT leave the in-memory history unchanged — the prior
one-entry history has been cleared. -/
theorem load_failure_mutates_cex :
    (load_from_csv cexWorld).1 = false ∧
    (load_from_csv cexWorld).2.hist ≠ cexWorld.hist := by
  decide

/-- C1 amended: the history is left unchanged exactly on the failed loads
that occur before the replace begins — a missing file or a parse error.
A failure while reconstructing an entry instead leaves the history holding
the entries reconstructed before the failing row, independent of (and with
no trace of) the history held before the call. -/
theorem load_from_csv_failure_state (w : World) :
    ((w.file = FileState.missing ∨ w.file = FileState.corrupt) →
      load_from_csv w = (false, w)) ∧
    (∀ rows, w.file = FileState.table rows →
      (load_from_csv w).2.hist = (reconstructRows rows).1 ∧
      (load_from_csv w).2.hist = (load_from_csv { w with hist := [] }).2.hist) := by
  constructor
  · rintro (h | h) <;> simp [load_from_csv, h]
  · intro rows h
    simp [load_from_csv, h]

/-- Witness for C1 (amended): a missing file leaves the concrete one-entry
history untouched, and on `cexWorld`'s table the resulting history is the
reconstruction prefix regardless of the prior history. -/
theorem load_from_csv_failure_state_witness :
    load_from_csv ⟨[cexCalc], true, true, .missing⟩
      = (false, ⟨[cexCalc], true, true, .missing⟩) ∧
    (load_from_csv cexWorld).2.hist = (reconstructRows [cexRow]).1 := by
  constructor
  · exact (load_from_csv_failure_state ⟨[cexCalc], true, true, .missing⟩).1
      (Or.inl rfl)
  · exact ((load_from_csv_failure_state cexWorld).2 [cexRow] rfl).1

/-- C2 (code-bug evidence): for every state, the `clear` subcommand empties
the in-memory history but never updates the persisted file, and always
prints the file-update-failure message — `save_to_csv` on the now-empty
history unconditionally takes its empty-history `False` branch, so the
"saved file updated" message and the file write are unreachable. -/
theorem clear_never_updates_file (now : String) (w : World) :
    (clearCmd now w).2.hist = [] ∧
    (clearCmd now w).2.file = w.file ∧
    (clearCmd now w).1
      = ["History cleared in memory, but there was an issue updating the file."] := by
  obtain ⟨hist, dE, dW, f⟩ := w
  rcases dE with _ | _ <;> rcases dW with _ | _ <;>
    simp [clearCmd, save_to_csv, ensureW]

/-- C3: saving a non-empty history (with the storage directory ready) and
then loading it back on the otherwise-untouched store succeeds and
reconstructs a history of the same length whose operand values and
operation names are identical to the saved ones; the reconstruction never
reads the file's `Result` column (the result is recomputed on demand). -/
theorem save_then_load_roundtrip (now : String) (w : World)
    (hne : w.hist ≠ [])
    (hdir : ensure_data_directory w.dirExists w.dirWritable = true) :
    (save_to_csv now w).1 = true ∧
    (load_from_csv (save_to_csv now w).2).1 = true ∧
    (load_from_csv (save_to_csv now w).2).2.hist.length = w.hist.length ∧
    ((load_from_csv (save_to_csv now w).2).2.hist.map
        (fun c => (c.a, c.b, c.operation.name)))
      = (w.hist.map (fun c => (c.a, c.b, c.operation.name))) ∧
    (∀ rows rows', List.Forall₂ sameExceptResult rows rows' →
      reconstructRows rows = reconstructRows rows') := by
  have hsave : save_to_csv now w
      = (true, ⟨w.hist, true, w.dirWritable,
          FileState.table (w.hist.map (calcToRow now))⟩) := by
    unfold save_to_csv
    rw [ensureW_of_ready w hdir]
    simp [List.isEmpty_iff, hne]
  have hload : load_from_csv (save_to_csv now w).2 = (true,
      ⟨w.hist, true, w.dirWritable,
        FileState.table (w.hist.map (calcToRow now))⟩) := by
    rw [hsave]
    simp [load_from_csv, reconstructRows_calcToRow]
  refine ⟨by rw [hsave], by rw [hload], by rw [hload], by rw [hload],
    fun _ _ h => reconstructRows_ignores_result h⟩

/-- Witness for C3 on a concrete two-entry history with a ready
directory. -/
theorem save_then_load_roundtrip_witness :
    ([⟨10, 5, .add⟩, ⟨20, 3, .subtract⟩] : List Calculation) ≠ [] ∧
    ensure_data_directory true true = true ∧
    (save_to_csv "t" ⟨[⟨10, 5, .add⟩, ⟨20, 3, .subtract⟩], true, true, .missing⟩).1
      = true ∧
    (load_from_csv
        (save_to_csv "t"
          ⟨[⟨10, 5, .add⟩, ⟨20, 3, .subtract⟩], true, true, .missing⟩).2).2.hist.length
      = ([⟨10, 5, .add⟩, ⟨20, 3, .subtract⟩] : List Calculation).length := by
  have h := save_then_load_roundtrip "t"
    ⟨[⟨10, 5, .add⟩, ⟨20, 3, .subtract⟩], true, true, .missing⟩
    (by decide) (by decide)
  exact ⟨by decide, by decide, h.1, h.2.2.1⟩

/-! ### Dispatch helper lemmas for `executeHistory` -/

theorem lower_show_upper : lowerAscii "SHOW" = "show" := by decide

theorem lower_delete : lowerAscii "delete" = "delete" := by decide

theorem lower_analyze : lowerAscii "analyze" = "analyze" := by decide

theorem lower_filter_arg : lowerAscii "filter" = "filter" := by decide

theorem exec_show_upper (now : String) (rest : List String) (w : World) :
    executeHistory now ("SHOW" :: rest) w = (displayHistory w.hist, w) := by
  simp [executeHistory, lower_show_upper]

theorem exec_delete (now : String) (rest : List String) (w : World) :
    executeHistory now ("delete" :: rest) w = deleteCmd rest w := by
  simp [executeHistory, lower_delete]

theorem exec_analyze (now : String) (rest : List String) (w : World) :
    executeHistory now ("analyze" :: rest) w = (analyzeHistory w.hist, w) := by
  simp [executeHistory, lower_analyze]

theorem exec_filter (now : String) (rest : List String) (w : World) :
    executeHistory now ("filter" :: rest) w = filterCmd rest w := by
  simp [executeHistory, lower_filter_arg]

/-- Membership in a `find_by_operation` result forces the operation name. -/
theorem name_eq_of_mem_find {hist : List Calculation} {name : String}
    {c : Calculation} (hc : c ∈ find_by_operation hist name) :
    c.operation.name = name := by
  unfold find_by_operation at hc
  exact beq_iff_eq.mp (List.mem_filter.mp hc).2

/-- C7: a `delete` argument that does not parse as an integer is reported
with an invalid-index message that contains the offending token literally,
and the store is left unchanged; a missing argument is reported with the
please-provide-an-index message, also without mutating the store. -/
theorem delete_invalid_index_spec (now : String) (w : World) (arg : String)
    (rest : List String) :
    (pyInt arg = none →
      executeHistory now ("delete" :: arg :: rest) w
        = (["Error: '" ++ arg ++ "' is not a valid index. Please provide a number."],
           w)) ∧
    executeHistory now ["delete"] w
      = (["Error: Please provide an index to delete (e.g., 'delete 2')"], w) := by
  constructor
  · intro h
    rw [exec_delete]
    simp [deleteCmd, h]
  · rw [exec_delete]
    rfl

/-- Witness for C7 at the spec's scenario token `"abc"`. -/
theorem delete_invalid_index_spec_witness :
    executeHistory "t" ["delete", "abc"] ⟨[cexCalc], true, true, .missing⟩
      = (["Error: 'abc' is not a valid index. Please provide a number."],
         ⟨[cexCalc], true, true, .missing⟩) ∧
    executeHistory "t" ["delete"] ⟨[cexCalc], true, true, .missing⟩
      = (["Error: Please provide an index to delete (e.g., 'delete 2')"],
         ⟨[cexCalc], true, true, .missing⟩) := by
  have h := delete_invalid_index_spec "t" ⟨[cexCalc], true, true, .missing⟩ "abc" []
  have h1 := h.1 (by decide)
  have he : "Error: '" ++ "abc" ++ "' is not a valid index. Please provide a number."
      = "Error: 'abc' is not a valid index. Please provide a number." := by decide
  rw [he] at h1
  exact ⟨h1, h.2⟩

/-- C9: the first argument of the history command is lowercased before
subcommand lookup — `"SHOW"` dispatches to `show`, two spellings with the
same lowercase form are handled identically — and the unknown-subcommand
message names the lowercased form of the token. -/
theorem execute_case_insensitive_spec (now : String) (rest : List String)
    (w : World) (sub sub' : String) :
    executeHistory now ("SHOW" :: rest) w = (displayHistory w.hist, w) ∧
    (lowerAscii sub = lowerAscii sub' →
      executeHistory now (sub :: rest) w = executeHistory now (sub' :: rest) w) ∧
    (lowerAscii sub ∉ subcommandNames →
      executeHistory now (sub :: rest) w
        = (["Unknown history subcommand: '" ++ lowerAscii sub ++ "'"], w)) := by
  refine ⟨exec_show_upper now rest w, ?_, ?_⟩
  · intro h
    simp only [executeHistory]
    rw [h]
  · intro h
    simp only [subcommandNames, List.mem_cons, List.not_mem_nil, or_false,
      not_or] at h
    obtain ⟨h1, h2, h3, h4, h5, h6, h7⟩ := h
    simp only [executeHistory]
    rw [if_neg h1, if_neg h2, if_neg h3, if_neg h4, if_neg h5, if_neg h6,
      if_neg h7]

/-- Witness for C9: `SHOW` behaves as `show`, `CLEAR` as `clear`, and the
unknown token `FOO` is reported as `foo`. -/
theorem execute_case_insensitive_spec_witness :
    executeHistory "t" ["SHOW"] ⟨[], true, true, .missing⟩
      = (displayHistory [], ⟨[], true, true, .missing⟩) ∧
    executeHistory "t" ["CLEAR"] ⟨[], true, true, .missing⟩
      = executeHistory "t" ["clear"] ⟨[], true, true, .missing⟩ ∧
    executeHistory "t" ["FOO"] ⟨[], true, true, .missing⟩
      = (["Unknown history subcommand: 'foo'"], ⟨[], true, true, .missing⟩) := by
  have h := execute_case_insensitive_spec "t" [] ⟨[], true, true, .missing⟩
    "CLEAR" "clear"
  have h3 := (execute_case_insensitive_spec "t" []
    ⟨[], true, true, .missing⟩ "FOO" "FOO").2.2 (by decide)
  have he : "Unknown history subcommand: '" ++ lowerAscii "FOO" ++ "'"
      = "Unknown history subcommand: 'foo'" := by decide
  rw [he] at h3
  exact ⟨h.1, h.2.1 (by decide), h3⟩

/-- C10: the `filter` subcommand lowercases its operation-name argument
before querying the store — two spellings with the same lowercase form
filter identically, the query actually used is the lowercased argument —
and consequently an entry whose operation name contains an ASCII uppercase
letter can never be matched through `filter`, even though
`find_by_operation` itself compares case-sensitively. -/
theorem filter_lowercases_spec (now : String) (w : World) (arg : String)
    (rest : List String) :
    executeHistory now ("filter" :: arg :: rest) w = filterCmd (arg :: rest) w ∧
    filterCmd (arg :: rest) w = filterCmd (lowerAscii arg :: rest) w ∧
    (∀ c ∈ find_by_operation w.hist (lowerAscii arg),
      ∀ ch ∈ c.operation.name.data, ¬(65 ≤ ch.toNat ∧ ch.toNat ≤ 90)) := by
  refine ⟨exec_filter now (arg :: rest) w, ?_, ?_⟩
  · simp only [filterCmd, lowerAscii_idem]
  · intro c hc ch hch
    rw [name_eq_of_mem_find hc] at hch
    exact lowerAscii_no_upper arg ch hch

/-- Witness for C10: the mixed-case argument `"ADD"` filters exactly like
`"add"` and matches the lowercase-named `add` entry. -/
theorem filter_lowercases_spec_witness :
    executeHistory "t" ["filter", "ADD"] ⟨[cexCalc], true, true, .missing⟩
      = filterCmd ["ADD"] ⟨[cexCalc], true, true, .missing⟩ ∧
    filterCmd ["ADD"] ⟨[cexCalc], true, true, .missing⟩
      = filterCmd ["add"] ⟨[cexCalc], true, true, .missing⟩ ∧
    find_by_operation [cexCalc] (lowerAscii "ADD") = [cexCalc] := by
  have h := filter_lowercases_spec "t" ⟨[cexCalc], true, true, .missing⟩ "ADD" []
  have he : lowerAscii "ADD" = "add" := by decide
  have h2 := h.2.1
  rw [he] at h2
  exact ⟨h.1, h2, by decide⟩

/-- C8: `analyze` on the history `{(5,3,add)=8, (10,2,multiply)=20}`
reports a total of 2, shares of 50.0% for `add` and 50.0% for `multiply`,
an average of 14.00, a maximum of 20.00 and a minimum of 8.00; on an empty
history it reports the nothing-to-analyze message and no statistics. -/
theorem analyze_example_spec :
    "Total calculations: 2"
      ∈ (executeHistory "t" ["analyze"]
          ⟨[⟨5, 3, .add⟩, ⟨10, 2, .multiply⟩], true, true, .missing⟩).1 ∧
    "  - add: 1 (50.0%)"
      ∈ (executeHistory "t" ["analyze"]
          ⟨[⟨5, 3, .add⟩, ⟨10, 2, .multiply⟩], true, true, .missing⟩).1 ∧
    "  - multiply: 1 (50.0%)"
      ∈ (executeHistory "t" ["analyze"]
          ⟨[⟨5, 3, .add⟩, ⟨10, 2, .multiply⟩], true, true, .missing⟩).1 ∧
    "  - Average result: 14.00"
      ∈ (executeHistory "t" ["analyze"]
          ⟨[⟨5, 3, .add⟩, ⟨10, 2, .multiply⟩], true, true, .missing⟩).1 ∧
    "  - Maximum result: 20.00"
      ∈ (executeHistory "t" ["analyze"]
          ⟨[⟨5, 3, .add⟩, ⟨10, 2, .multiply⟩], true, true, .missing⟩).1 ∧
    "  - Minimum result: 8.00"
      ∈ (executeHistory "t" ["analyze"]
          ⟨[⟨5, 3, .add⟩, ⟨10, 2, .multiply⟩], true, true, .missing⟩).1 ∧
    (executeHistory "t" ["analyze"] ⟨[], true, true, .missing⟩).1
      = ["No calculations in history to analyze."] := by
  have hd := exec_analyze "t" []
    (⟨[⟨5, 3, .add⟩, ⟨10, 2, .multiply⟩], true, true, .missing⟩ : World)
  have he := exec_analyze "t" [] (⟨[], true, true, .missing⟩ : World)
  have hval : analyzeHistory [⟨5, 3, .add⟩, ⟨10, 2, .multiply⟩]
      = ["\nHistory Analysis:", "Total calculations: 2",
         "\nOperations breakdown:", "  - add: 1 (50.0%)",
         "  - multiply: 1 (50.0%)", "\nResults statistics:",
         "  - Average result: 14.00", "  - Maximum result: 20.00",
         "  - Minimum result: 8.00"] := by
    with_unfolding_all rfl
  rw [hd, hval, he]
  exact ⟨by decide, by decide, by decide, by decide, by decide, by decide, rfl⟩

end CalcHist
